import Mathlib

/-!
Verification development for the NotebookLM artifact orchestration scripts
(`common.py` and the scheduler variant in `main.py`).

The development shallowly embeds the core components:
  * the raw response decoder `extraer_url_de_artefacto_raw`;
  * the existence scanner `verificar_artefactos_existentes` together with
    the language predicate `artefacto_tiene_idioma`;
  * the generation scheduler `generar_artefactos`.

Python's dynamically typed values are modelled by the inductive type `PyVal`;
subscripting is modelled by `pyIndex`, which raises `IndexError` on an
out-of-range index and `TypeError` on a non-indexable value, mirroring the
exceptions the source's `try/except (IndexError, TypeError)` wrapper catches.
-/

/-- Model of a Python value as it appears in the raw artifact payloads:
strings, integers, booleans, `None`, and (nested) lists. -/
inductive PyVal where
  | str (s : String)
  | int (n : Int)
  | bool (b : Bool)
  | none
  | list (l : List PyVal)

mutual

/-- Decidable equality of `PyVal` (hand-rolled: the nested `List` blocks the
derive handler). -/
def PyVal.decEq : (a b : PyVal) → Decidable (a = b)
  | .str a, .str b =>
    match String.decEq a b with
    | isTrue h => isTrue (by rw [h])
    | isFalse h => isFalse (by simp [h])
  | .int a, .int b =>
    match Int.decEq a b with
    | isTrue h => isTrue (by rw [h])
    | isFalse h => isFalse (by simp [h])
  | .bool a, .bool b =>
    match Bool.decEq a b with
    | isTrue h => isTrue (by rw [h])
    | isFalse h => isFalse (by simp [h])
  | .none, .none => isTrue rfl
  | .list a, .list b =>
    match PyVal.decEqList a b with
    | isTrue h => isTrue (by rw [h])
    | isFalse h => isFalse (by simp [h])
  | .str _, .int _ => isFalse (by simp)
  | .str _, .bool _ => isFalse (by simp)
  | .str _, .none => isFalse (by simp)
  | .str _, .list _ => isFalse (by simp)
  | .int _, .str _ => isFalse (by simp)
  | .int _, .bool _ => isFalse (by simp)
  | .int _, .none => isFalse (by simp)
  | .int _, .list _ => isFalse (by simp)
  | .bool _, .str _ => isFalse (by simp)
  | .bool _, .int _ => isFalse (by simp)
  | .bool _, .none => isFalse (by simp)
  | .bool _, .list _ => isFalse (by simp)
  | .none, .str _ => isFalse (by simp)
  | .none, .int _ => isFalse (by simp)
  | .none, .bool _ => isFalse (by simp)
  | .none, .list _ => isFalse (by simp)
  | .list _, .str _ => isFalse (by simp)
  | .list _, .int _ => isFalse (by simp)
  | .list _, .bool _ => isFalse (by simp)
  | .list _, .none => isFalse (by simp)

/-- Decidable equality of lists of `PyVal`. -/
def PyVal.decEqList : (a b : List PyVal) → Decidable (a = b)
  | [], [] => isTrue rfl
  | x :: xs, y :: ys =>
    match PyVal.decEq x y, PyVal.decEqList xs ys with
    | isTrue h1, isTrue h2 => isTrue (by rw [h1, h2])
    | isFalse h1, _ => isFalse (by simp [h1])
    | _, isFalse h2 => isFalse (by simp [h2])
  | [], _ :: _ => isFalse (by simp)
  | _ :: _, [] => isFalse (by simp)

end

instance : DecidableEq PyVal := PyVal.decEq

deriving instance DecidableEq for Except

/-- `a` is a prefix of `b` (on character lists). -/
def esPrefijo : List Char → List Char → Bool
  | [], _ => true
  | _ :: _, [] => false
  | a :: as, b :: bs => (a = b) && esPrefijo as bs

/-- Python's `s.startswith(pre)`, modelled on the character lists of the two
strings so that it evaluates by kernel reduction. -/
def pyStartsWith (s pre : String) : Bool :=
  esPrefijo pre.data s.data

/-- Python's `s.lower()` (character-wise lowercasing; the language tags and
URLs involved are ASCII). -/
def pyLower (s : String) : String :=
  String.mk (s.data.map Char.toLower)

/-- Python exceptions relevant to the embedded code: `IndexError` and
`TypeError` (caught by the decoder's wrapper) and `KeyError` (raised by a
dict lookup with a missing key, never caught in the scheduler). -/
inductive PyExc where
  | indexError
  | typeError
  | keyError
deriving DecidableEq

/-- Python subscripting `v[i]` (non-negative index): on a list it yields the
element or raises `IndexError` when out of range; on a non-list it raises
`TypeError`. -/
def pyIndex : PyVal → Nat → Except PyExc PyVal
  | PyVal.list l, i =>
    match l.get? i with
    | some x => Except.ok x
    | Option.none => Except.error PyExc.indexError
  | _, _ => Except.error PyExc.typeError

-- StudioContentType constants (common.py lines 21-28)
def STUDIO_AUDIO : Int := 1
def STUDIO_REPORT : Int := 2
def STUDIO_VIDEO : Int := 3
def STUDIO_QUIZ : Int := 4
def STUDIO_MIND_MAP : Int := 5
def STUDIO_INFOGRAPHIC : Int := 7
def STUDIO_SLIDE_DECK : Int := 8
def STUDIO_DATA_TABLE : Int := 9

/-- Completed artifact status (common.py line 31). -/
def ARTIFACT_STATUS_COMPLETED : Int := 3

/-- The `for item in media_list` search loop shared by the audio and video
branches of the decoder: return `item[0]` of the first `item` that is a list
of length `> 2` whose `item[2]` equals the requested MIME string
(common.py lines 58-60 and 83-85). -/
def buscarMime (mime : String) : List PyVal → Except PyExc (Option PyVal)
  | [] => Except.ok Option.none
  | item :: resto =>
    match item with
    | PyVal.list e =>
      if e.length > 2 then
        match pyIndex (PyVal.list e) 2 with
        | Except.error ex => Except.error ex
        | Except.ok v =>
          if v = PyVal.str mime then
            match pyIndex (PyVal.list e) 0 with
            | Except.error ex => Except.error ex
            | Except.ok u => Except.ok (some u)
          else buscarMime mime resto
      else buscarMime mime resto
    | _ => buscarMime mime resto

/-- The video branch's search for the media list: the first element of
`metadata` that is a non-empty list whose first element is itself a non-empty
list beginning with a string starting with `"http"`
(common.py lines 73-79). -/
def buscarListaMedios : List PyVal → Except PyExc (Option (List PyVal))
  | [] => Except.ok Option.none
  | item :: resto =>
    match item with
    | PyVal.list l =>
      if l.length > 0 then
        match pyIndex (PyVal.list l) 0 with
        | Except.error ex => Except.error ex
        | Except.ok v0 =>
          match v0 with
          | PyVal.list l0 =>
            if l0.length > 0 then
              match pyIndex (PyVal.list l0) 0 with
              | Except.error ex => Except.error ex
              | Except.ok v00 =>
                match v00 with
                | PyVal.str s =>
                  if pyStartsWith s "http" then Except.ok (some l)
                  else buscarListaMedios resto
                | _ => buscarListaMedios resto
            else buscarListaMedios resto
          | _ => buscarListaMedios resto
      else buscarListaMedios resto
    | _ => buscarListaMedios resto

/-- The infographic branch's reverse scan (common.py lines 92-105); the
argument is `reversed(artifact_raw)`.  Each iteration checks, in source
order: `item` is a non-empty list; `item[0]` is a list; `len(item) > 2` and
`item[2]` is a non-empty list; `content_list[0]` is a list of length `> 1`;
`img_data = content_list[0][1]` is a non-empty list whose first element is a
string starting with `"http"`. -/
def buscarInfografia : List PyVal → Except PyExc (Option PyVal)
  | [] => Except.ok Option.none
  | item :: resto =>
    match item with
    | PyVal.list l =>
      if l.length = 0 then buscarInfografia resto
      else
        match pyIndex (PyVal.list l) 0 with
        | Except.error ex => Except.error ex
        | Except.ok v0 =>
          match v0 with
          | PyVal.list _ =>
            if l.length ≤ 2 then buscarInfografia resto
            else
              match pyIndex (PyVal.list l) 2 with
              | Except.error ex => Except.error ex
              | Except.ok v2 =>
                match v2 with
                | PyVal.list cl =>
                  if cl.length = 0 then buscarInfografia resto
                  else
                    match pyIndex (PyVal.list cl) 0 with
                    | Except.error ex => Except.error ex
                    | Except.ok c0 =>
                      match c0 with
                      | PyVal.list c0l =>
                        if c0l.length ≤ 1 then buscarInfografia resto
                        else
                          match pyIndex (PyVal.list c0l) 1 with
                          | Except.error ex => Except.error ex
                          | Except.ok img =>
                            match img with
                            | PyVal.list il =>
                              if il.length > 0 then
                                match pyIndex (PyVal.list il) 0 with
                                | Except.error ex => Except.error ex
                                | Except.ok i0 =>
                                  match i0 with
                                  | PyVal.str s =>
                                    if pyStartsWith s "http" then
                                      Except.ok (some (PyVal.str s))
                                    else buscarInfografia resto
                                  | _ => buscarInfografia resto
                              else buscarInfografia resto
                            | _ => buscarInfografia resto
                      | _ => buscarInfografia resto
                | _ => buscarInfografia resto
          | _ => buscarInfografia resto
    | _ => buscarInfografia resto

/-- Body of `extraer_url_de_artefacto_raw` (common.py lines 46-116), i.e. the
code inside the `try:` block, with every subscript expression modelled by
`pyIndex` so that the exceptions Python could raise are explicit. -/
def extraerCuerpo (artifact_raw : List PyVal) (artifact_type : Int) :
    Except PyExc (Option PyVal) :=
  if artifact_type = STUDIO_AUDIO then
    -- Audio: artifact[6][5] contains the media list
    if artifact_raw.length ≤ 6 then Except.ok Option.none
    else
      match pyIndex (PyVal.list artifact_raw) 6 with
      | Except.error ex => Except.error ex
      | Except.ok metadata =>
        match metadata with
        | PyVal.list ml =>
          if ml.length ≤ 5 then Except.ok Option.none
          else
            match pyIndex (PyVal.list ml) 5 with
            | Except.error ex => Except.error ex
            | Except.ok media =>
              match media with
              | PyVal.list items =>
                if items.length = 0 then Except.ok Option.none
                else
                  match buscarMime "audio/mp4" items with
                  | Except.error ex => Except.error ex
                  | Except.ok (some u) => Except.ok (some u)
                  | Except.ok Option.none =>
                    -- Fallback: first item
                    match pyIndex (PyVal.list items) 0 with
                    | Except.error ex => Except.error ex
                    | Except.ok m0 =>
                      match m0 with
                      | PyVal.list m0l =>
                        if m0l.length > 0 then
                          match pyIndex (PyVal.list m0l) 0 with
                          | Except.error ex => Except.error ex
                          | Except.ok u => Except.ok (some u)
                        else Except.ok Option.none
                      | _ => Except.ok Option.none
              | _ => Except.ok Option.none
        | _ => Except.ok Option.none
  else if artifact_type = STUDIO_VIDEO then
    -- Video: artifact[8] contains metadata with URLs
    if artifact_raw.length ≤ 8 then Except.ok Option.none
    else
      match pyIndex (PyVal.list artifact_raw) 8 with
      | Except.error ex => Except.error ex
      | Except.ok metadata =>
        match metadata with
        | PyVal.list ml =>
          match buscarListaMedios ml with
          | Except.error ex => Except.error ex
          | Except.ok Option.none => Except.ok Option.none
          | Except.ok (some media_list) =>
            match buscarMime "video/mp4" media_list with
            | Except.error ex => Except.error ex
            | Except.ok (some u) => Except.ok (some u)
            | Except.ok Option.none =>
              -- Fallback
              match pyIndex (PyVal.list media_list) 0 with
              | Except.error ex => Except.error ex
              | Except.ok m0 =>
                match m0 with
                | PyVal.list m0l =>
                  if m0l.length > 0 then
                    match pyIndex (PyVal.list m0l) 0 with
                    | Except.error ex => Except.error ex
                    | Except.ok u => Except.ok (some u)
                  else Except.ok Option.none
                | _ => Except.ok Option.none
        | _ => Except.ok Option.none
  else if artifact_type = STUDIO_INFOGRAPHIC then
    buscarInfografia artifact_raw.reverse
  else if artifact_type = STUDIO_SLIDE_DECK then
    -- Slides: artifact[16][3] contains the PDF URL
    if artifact_raw.length ≤ 16 then Except.ok Option.none
    else
      match pyIndex (PyVal.list artifact_raw) 16 with
      | Except.error ex => Except.error ex
      | Except.ok metadata =>
        match metadata with
        | PyVal.list ml =>
          if ml.length ≤ 3 then Except.ok Option.none
          else
            match pyIndex (PyVal.list ml) 3 with
            | Except.error ex => Except.error ex
            | Except.ok pdf =>
              match pdf with
              | PyVal.str s =>
                if pyStartsWith s "http" then Except.ok (some (PyVal.str s))
                else Except.ok Option.none
              | _ => Except.ok Option.none
        | _ => Except.ok Option.none
  else Except.ok Option.none

/-- `extraer_url_de_artefacto_raw` (common.py lines 34-121): the body wrapped
in `try: ... except (IndexError, TypeError): pass` followed by `return None`.
An `IndexError` or `TypeError` raised by the body is converted to `None`;
any other exception would propagate to the caller. -/
def extraer_url_de_artefacto_raw (artifact_raw : List PyVal)
    (artifact_type : Int) : Except PyExc (Option PyVal) :=
  match extraerCuerpo artifact_raw artifact_type with
  | Except.ok r => Except.ok r
  | Except.error PyExc.indexError => Except.ok Option.none
  | Except.error PyExc.typeError => Except.ok Option.none
  | Except.error e => Except.error e

/-!
## Existence scanner (`verificar_artefactos_existentes`, common.py 263-388)

The external client is modelled by an oracle `listar : String → Except String
(List Artefacto)` giving, for each artifact kind, either the records the
per-kind listing call returns or the exception it raises (the notebook id is
fixed inside the oracle).  The scanner's `existentes` dict is modelled as a
function from kind names to record lists.
-/

/-- One artifact record as reported by the external service (id, optional
title, optional language tag).  A `language` of `Option.none` models a record
with no `language` attribute; `some ""` models an empty attribute — both are
falsy in the source's `if lang:` test. -/
structure Artefacto where
  id : String
  title : Option String
  language : Option String
deriving DecidableEq

/-- `artefacto_tiene_idioma` (common.py lines 246-260): if the record exposes
a truthy `language`, case-insensitive prefix match against the requested
language; otherwise (no attribute, or empty string) the record is assumed to
match. -/
def artefacto_tiene_idioma (artefacto : Artefacto) (idioma : String) : Bool :=
  match artefacto.language with
  | some lang =>
    if lang = "" then true
    else pyStartsWith (pyLower lang) (pyLower idioma)
  | Option.none => true

/-- Canonical registry order `ORDEN_ARTEFACTOS` (common.py line 243). -/
def ORDEN_ARTEFACTOS : List String :=
  ["report", "mind_map", "data_table", "slides", "infographic", "quiz",
   "flashcards", "audio", "video"]

/-- One per-kind listing block of the scanner (common.py e.g. lines 289-297):
the call is wrapped in its own `try/except`; an exception leaves the kind's
entry at its initial `[]`. -/
def listarKind (listar : String → Except String (List Artefacto))
    (kind : String) : List Artefacto :=
  match listar kind with
  | Except.ok l => l
  | Except.error _ => []

/-- The `for record in records: if artefacto_tiene_idioma(record, idioma):
existentes[kind].append(record)` loop used for reports and audio
(common.py lines 293-295 and 304-306). -/
def filtrarIdioma (idioma : String) : List Artefacto → List Artefacto
  | [] => []
  | r :: resto =>
    if artefacto_tiene_idioma r idioma then r :: filtrarIdioma idioma resto
    else filtrarIdioma idioma resto

/-- `verificar_artefactos_existentes` (common.py lines 263-388), restricted to
the `existentes` snapshot it returns (the id→URL half is
`obtener_urls_artefactos` and is not needed by the claims).  Reports and
audio records pass through the language filter; slides, infographics, video,
mind maps, data tables, quizzes and flashcards are stored unfiltered
(lines 315, 324, 333, 343, 352, 361, 370). -/
def verificar_artefactos_existentes
    (listar : String → Except String (List Artefacto)) (idioma : String) :
    String → List Artefacto
  | "report" => filtrarIdioma idioma (listarKind listar "report")
  | "audio" => filtrarIdioma idioma (listarKind listar "audio")
  | "slides" => listarKind listar "slides"
  | "infographic" => listarKind listar "infographic"
  | "video" => listarKind listar "video"
  | "mind_map" => listarKind listar "mind_map"
  | "data_table" => listarKind listar "data_table"
  | "quiz" => listarKind listar "quiz"
  | "flashcards" => listarKind listar "flashcards"
  | _ => []

/-!
## Generation scheduler (`generar_artefactos`, common.py 391-512)

The generation call for each kind is modelled by an oracle
`llamar : String → CallResult` (the immediate response of
`await generar_func(notebook_id, **kwargs)`, or the fact that it raised), and
`wait_for_completion` by `espera : String → Bool` (`false` = the await
raised).  Console output is modelled as a trace of `Evento`s so that the
claims about which kinds are attempted, skipped or reported can be stated;
the Python function's own return value is just the success count.
-/

/-- Immediate result object of a generation call, as the scheduler inspects
it: overall truthiness, `status`, `is_rate_limited`, `error`, `task_id`, and
(for the synchronous mind-map call, which returns a dict) the truthiness of
`resultado.get('mind_map')`. -/
structure GenResult where
  falsy : Bool
  status : Option String
  is_rate_limited : Bool
  errorMsg : Option String
  task_id : Option String
  mind_map : Bool
deriving DecidableEq

/-- Behaviour of one generation call: it either raises or returns a result
object. -/
inductive CallResult where
  | raises
  | returns (r : GenResult)
deriving DecidableEq

/-- Per-kind observable events of a scheduler run (the console messages of
common.py lines 452, 475, 478, 486, 491, 501, 506, plus `llamada`, which
marks that the generation call for the kind was actually issued at line
470). -/
inductive Evento where
  | llamada (tipo : String)
  | omitido (tipo : String)
  | completado (tipo : String)
  | limite (tipo : String)
  | rechazado (tipo : String) (msg : String)
  | excepcion (tipo : String)
deriving DecidableEq

/-- The kind an event refers to. -/
def Evento.deTipo : Evento → String
  | llamada t => t
  | omitido t => t
  | completado t => t
  | limite t => t
  | rechazado t _ => t
  | excepcion t => t

/-- `CONFIG_ARTEFACTOS` (common.py lines 418-428): display name and whether
the generation call receives a `language` kwarg.  A kind outside this table
makes `CONFIG_ARTEFACTOS[tipo]` raise `KeyError`. -/
def CONFIG_ARTEFACTOS : String → Option (String × Bool)
  | "report" => some ("Informe", true)
  | "mind_map" => some ("Mapa Mental", false)
  | "data_table" => some ("Tabla de Datos", true)
  | "slides" => some ("Presentación (Slides)", true)
  | "infographic" => some ("Infografía", true)
  | "quiz" => some ("Cuestionario", false)
  | "flashcards" => some ("Tarjetas Didácticas", false)
  | "audio" => some ("Resumen de Audio", true)
  | "video" => some ("Video", true)
  | _ => Option.none

/-- `CUOTA_COMPARTIDA` (common.py lines 412-414): slides and infographic
share the `premium` quota group. -/
def CUOTA_COMPARTIDA : String → Option String
  | "slides" => some "premium"
  | "infographic" => some "premium"
  | _ => Option.none

/-- Truthiness of `getattr(resultado, 'task_id', None)`. -/
def taskTruthy (r : GenResult) : Bool :=
  match r.task_id with
  | some s => decide (s ≠ "")
  | Option.none => false

/-- The quota-skip condition `grupo_cuota and grupo_cuota in cuotas_agotadas`
(common.py line 451). -/
def debeOmitir (tipo : String) (agotadas : List (Option String)) : Bool :=
  match CUOTA_COMPARTIDA tipo with
  | some g => decide ((some g) ∈ agotadas)
  | Option.none => false

/-- The `try:` block of one loop iteration (common.py lines 468-508), for a
kind that was not skipped. -/
def atenderTipo (llamar : String → CallResult) (espera : String → Bool)
    (tipo : String) (agotadas : List (Option String)) :
    List Evento × Nat × List (Option String) :=
  let grupo := CUOTA_COMPARTIDA tipo
  match llamar tipo with
    | CallResult.raises => ([Evento.llamada tipo, Evento.excepcion tipo], 0, agotadas)
    | CallResult.returns r =>
      if tipo = "mind_map" then
        -- ARTEFACTOS_SINCRONOS branch (lines 473-481)
        if r.falsy = false ∧ r.mind_map = true then
          ([Evento.llamada tipo, Evento.completado tipo], 1, agotadas)
        else
          ([Evento.llamada tipo, Evento.rechazado tipo "No se pudo generar"], 0, agotadas)
      else if r.falsy = false ∧ r.status = some "failed" then
        if r.is_rate_limited then
          ([Evento.llamada tipo, Evento.limite tipo], 0, grupo :: agotadas)
        else
          ([Evento.llamada tipo,
            Evento.rechazado tipo (r.errorMsg.getD "Error desconocido")], 0, agotadas)
      else if r.falsy = false ∧ taskTruthy r = true then
        if espera tipo then
          ([Evento.llamada tipo, Evento.completado tipo], 1, agotadas)
        else
          ([Evento.llamada tipo, Evento.excepcion tipo], 0, agotadas)
      else
        ([Evento.llamada tipo, Evento.completado tipo], 1, agotadas)

/-- One loop iteration of `generar_artefactos` for an already-looked-up kind
(common.py lines 448-510): the quota-skip check, then the `try:` block.
Returns the events emitted, the increment of `exitosos`, and the updated
`cuotas_agotadas` (a rate-limited failure appends
`CUOTA_COMPARTIDA.get(tipo)` — possibly `None` — exactly as
`cuotas_agotadas.add(grupo_cuota)` does at line 487). -/
def paso (llamar : String → CallResult) (espera : String → Bool)
    (tipo : String) (agotadas : List (Option String)) :
    List Evento × Nat × List (Option String) :=
  if debeOmitir tipo agotadas then ([Evento.omitido tipo], 0, agotadas)
  else atenderTipo llamar espera tipo agotadas

/-- The `for i, tipo in enumerate(faltantes):` loop (common.py lines
446-510).  The lookup `CONFIG_ARTEFACTOS[tipo]` at line 447 happens before
the quota check and before the `try:` block, so an unregistered kind raises
`KeyError` and aborts the whole run. -/
def generarLazo (llamar : String → CallResult) (espera : String → Bool) :
    List String → List (Option String) →
    Except PyExc (Nat × List Evento × List (Option String))
  | [], agotadas => Except.ok (0, [], agotadas)
  | tipo :: resto, agotadas =>
    match CONFIG_ARTEFACTOS tipo with
    | Option.none => Except.error PyExc.keyError
    | some _ =>
      match paso llamar espera tipo agotadas with
      | (evts, dn, ag) =>
        match generarLazo llamar espera resto ag with
        | Except.ok (n, tr, agf) => Except.ok (dn + n, evts ++ tr, agf)
        | Except.error e => Except.error e

/-- `generar_artefactos` (common.py lines 391-512): starting from an empty
`cuotas_agotadas`, run the loop and return `exitosos` — the function's only
return value. -/
def generar_artefactos (llamar : String → CallResult) (espera : String → Bool)
    (faltantes : List String) : Except PyExc Nat :=
  match generarLazo llamar espera faltantes [] with
  | Except.ok (n, _, _) => Except.ok n
  | Except.error e => Except.error e

/-- The same run, exposing the success count together with the event trace
(the console reporting of per-kind outcomes). -/
def generarEventos (llamar : String → CallResult) (espera : String → Bool)
    (faltantes : List String) : Except PyExc (Nat × List Evento) :=
  match generarLazo llamar espera faltantes [] with
  | Except.ok (n, tr, _) => Except.ok (n, tr)
  | Except.error e => Except.error e

/-- Whether an event marks the issuing of a generation call. -/
def esLlamada : Evento → Bool
  | Evento.llamada _ => true
  | _ => false

/-- The kind of a call-issuing event, if it is one. -/
def tipoDeLlamada : Evento → Option String
  | Evento.llamada t => some t
  | _ => Option.none

/-- The kinds for which a generation call was actually issued, in trace
order. -/
def llamadasDe (tr : List Evento) : List String :=
  tr.filterMap tipoDeLlamada

/-- Whether an event reports a successful completion. -/
def esCompletado : Evento → Bool
  | Evento.completado _ => true
  | _ => false

/-- Whether a call's immediate response is a failure carrying the rate-limit
flag (the condition of common.py lines 484-485). -/
def respuestaLimitada : CallResult → Bool
  | CallResult.raises => false
  | CallResult.returns r =>
    !r.falsy && decide (r.status = some "failed") && r.is_rate_limited

/-!
## Totality of the decoder (claim C3)

The guards in the decoder's body ensure that every `pyIndex` access is in
range on a list, so the body never raises at all; a fortiori nothing escapes
the `except (IndexError, TypeError)` wrapper.
-/

theorem pyIndex_ok_of_lt (l : List PyVal) (i : Nat) (h : i < l.length) :
    ∃ x, pyIndex (PyVal.list l) i = Except.ok x ∧ l.get? i = some x := by
  cases hx : l.get? i with
  | none =>
    have := List.get?_eq_none.mp hx
    omega
  | some x => exact ⟨x, by simp only [pyIndex]; rw [hx], rfl⟩

theorem buscarMime_ok (mime : String) :
    ∀ items : List PyVal, ∃ r, buscarMime mime items = Except.ok r := by
  intro items
  induction items with
  | nil => exact ⟨Option.none, rfl⟩
  | cons item resto ih =>
    obtain ⟨r, hr⟩ := ih
    cases item with
    | str s => exact ⟨r, by simp [buscarMime, hr]⟩
    | int n => exact ⟨r, by simp [buscarMime, hr]⟩
    | bool b => exact ⟨r, by simp [buscarMime, hr]⟩
    | none => exact ⟨r, by simp [buscarMime, hr]⟩
    | list e =>
      by_cases hlen : e.length > 2
      · obtain ⟨v2, hv2, _⟩ := pyIndex_ok_of_lt e 2 (by omega)
        by_cases hm : v2 = PyVal.str mime
        · obtain ⟨v0, hv0, _⟩ := pyIndex_ok_of_lt e 0 (by omega)
          exact ⟨some v0, by simp [buscarMime, hlen, hv2, hm, hv0]⟩
        · exact ⟨r, by simp [buscarMime, hlen, hv2, hm, hr]⟩
      · exact ⟨r, by simp [buscarMime, hlen, hr]⟩

theorem buscarListaMedios_ok :
    ∀ metadata : List PyVal, ∃ r, buscarListaMedios metadata = Except.ok r := by
  intro metadata
  induction metadata with
  | nil => exact ⟨Option.none, rfl⟩
  | cons item resto ih =>
    obtain ⟨r, hr⟩ := ih
    cases item with
    | str s => exact ⟨r, by simp [buscarListaMedios, hr]⟩
    | int n => exact ⟨r, by simp [buscarListaMedios, hr]⟩
    | bool b => exact ⟨r, by simp [buscarListaMedios, hr]⟩
    | none => exact ⟨r, by simp [buscarListaMedios, hr]⟩
    | list l =>
      by_cases hlen : l.length > 0
      · obtain ⟨v0, hv0, _⟩ := pyIndex_ok_of_lt l 0 (by omega)
        cases v0 with
        | str s => exact ⟨r, by simp [buscarListaMedios, hlen, hv0, hr]⟩
        | int n => exact ⟨r, by simp [buscarListaMedios, hlen, hv0, hr]⟩
        | bool b => exact ⟨r, by simp [buscarListaMedios, hlen, hv0, hr]⟩
        | none => exact ⟨r, by simp [buscarListaMedios, hlen, hv0, hr]⟩
        | list l0 =>
          by_cases hl0 : l0.length > 0
          · obtain ⟨v00, hv00, _⟩ := pyIndex_ok_of_lt l0 0 (by omega)
            cases v00 with
            | str s =>
              by_cases hs : pyStartsWith s "http" = true
              · exact ⟨some l, by simp [buscarListaMedios, hlen, hv0, hl0, hv00, hs]⟩
              · exact ⟨r, by simp [buscarListaMedios, hlen, hv0, hl0, hv00, hs, hr]⟩
            | int n => exact ⟨r, by simp [buscarListaMedios, hlen, hv0, hl0, hv00, hr]⟩
            | bool b => exact ⟨r, by simp [buscarListaMedios, hlen, hv0, hl0, hv00, hr]⟩
            | none => exact ⟨r, by simp [buscarListaMedios, hlen, hv0, hl0, hv00, hr]⟩
            | list x => exact ⟨r, by simp [buscarListaMedios, hlen, hv0, hl0, hv00, hr]⟩
          · exact ⟨r, by simp [buscarListaMedios, hlen, hv0, hl0, hr]⟩
      · exact ⟨r, by simp [buscarListaMedios, hlen, hr]⟩

theorem buscarInfografia_ok :
    ∀ items : List PyVal, ∃ r, buscarInfografia items = Except.ok r := by
  intro items
  induction items with
  | nil => exact ⟨Option.none, rfl⟩
  | cons item resto ih =>
    obtain ⟨r, hr⟩ := ih
    cases item with
    | str s => exact ⟨r, by simp [buscarInfografia, hr]⟩
    | int n => exact ⟨r, by simp [buscarInfografia, hr]⟩
    | bool b => exact ⟨r, by simp [buscarInfografia, hr]⟩
    | none => exact ⟨r, by simp [buscarInfografia, hr]⟩
    | list l =>
      by_cases h0 : l.length = 0
      · exact ⟨r, by simp [buscarInfografia, h0, hr]⟩
      · obtain ⟨v0, hv0, _⟩ := pyIndex_ok_of_lt l 0 (by omega)
        cases v0 with
        | str s => exact ⟨r, by simp [buscarInfografia, h0, hv0, hr]⟩
        | int n => exact ⟨r, by simp [buscarInfografia, h0, hv0, hr]⟩
        | bool b => exact ⟨r, by simp [buscarInfografia, h0, hv0, hr]⟩
        | none => exact ⟨r, by simp [buscarInfografia, h0, hv0, hr]⟩
        | list w0 =>
          by_cases h2 : l.length ≤ 2
          · exact ⟨r, by simp [buscarInfografia, h0, hv0, h2, hr]⟩
          · obtain ⟨v2, hv2, _⟩ := pyIndex_ok_of_lt l 2 (by omega)
            cases v2 with
            | str s => exact ⟨r, by simp [buscarInfografia, h0, hv0, h2, hv2, hr]⟩
            | int n => exact ⟨r, by simp [buscarInfografia, h0, hv0, h2, hv2, hr]⟩
            | bool b => exact ⟨r, by simp [buscarInfografia, h0, hv0, h2, hv2, hr]⟩
            | none => exact ⟨r, by simp [buscarInfografia, h0, hv0, h2, hv2, hr]⟩
            | list cl =>
              by_cases hcl : cl.length = 0
              · exact ⟨r, by simp [buscarInfografia, h0, hv0, h2, hv2, hcl, hr]⟩
              · obtain ⟨c0, hc0, _⟩ := pyIndex_ok_of_lt cl 0 (by omega)
                cases c0 with
                | str s => exact ⟨r, by simp [buscarInfografia, h0, hv0, h2, hv2, hcl, hc0, hr]⟩
                | int n => exact ⟨r, by simp [buscarInfografia, h0, hv0, h2, hv2, hcl, hc0, hr]⟩
                | bool b => exact ⟨r, by simp [buscarInfografia, h0, hv0, h2, hv2, hcl, hc0, hr]⟩
                | none => exact ⟨r, by simp [buscarInfografia, h0, hv0, h2, hv2, hcl, hc0, hr]⟩
                | list c0l =>
                  by_cases hc0l : c0l.length ≤ 1
                  · exact ⟨r, by simp [buscarInfografia, h0, hv0, h2, hv2, hcl, hc0, hc0l, hr]⟩
                  · obtain ⟨img, himg, _⟩ := pyIndex_ok_of_lt c0l 1 (by omega)
                    cases img with
                    | str s => exact ⟨r, by simp [buscarInfografia, h0, hv0, h2, hv2, hcl, hc0, hc0l, himg, hr]⟩
                    | int n => exact ⟨r, by simp [buscarInfografia, h0, hv0, h2, hv2, hcl, hc0, hc0l, himg, hr]⟩
                    | bool b => exact ⟨r, by simp [buscarInfografia, h0, hv0, h2, hv2, hcl, hc0, hc0l, himg, hr]⟩
                    | none => exact ⟨r, by simp [buscarInfografia, h0, hv0, h2, hv2, hcl, hc0, hc0l, himg, hr]⟩
                    | list il =>
                      by_cases hil : il.length > 0
                      · obtain ⟨i0, hi0, _⟩ := pyIndex_ok_of_lt il 0 (by omega)
                        cases i0 with
                        | str s =>
                          by_cases hs : pyStartsWith s "http" = true
                          · exact ⟨some (PyVal.str s),
                              by simp [buscarInfografia, h0, hv0, h2, hv2, hcl, hc0, hc0l, himg, hil, hi0, hs]⟩
                          · exact ⟨r,
                              by simp [buscarInfografia, h0, hv0, h2, hv2, hcl, hc0, hc0l, himg, hil, hi0, hs, hr]⟩
                        | int n => exact ⟨r, by simp [buscarInfografia, h0, hv0, h2, hv2, hcl, hc0, hc0l, himg, hil, hi0, hr]⟩
                        | bool b => exact ⟨r, by simp [buscarInfografia, h0, hv0, h2, hv2, hcl, hc0, hc0l, himg, hil, hi0, hr]⟩
                        | none => exact ⟨r, by simp [buscarInfografia, h0, hv0, h2, hv2, hcl, hc0, hc0l, himg, hil, hi0, hr]⟩
                        | list z => exact ⟨r, by simp [buscarInfografia, h0, hv0, h2, hv2, hcl, hc0, hc0l, himg, hil, hi0, hr]⟩
                      · exact ⟨r, by simp [buscarInfografia, h0, hv0, h2, hv2, hcl, hc0, hc0l, himg, hil, hr]⟩

/-- The media list the video search returns is always non-empty: the search
condition requires `len(item) > 0`. -/
theorem buscarListaMedios_nonempty :
    ∀ items l, buscarListaMedios items = Except.ok (some l) → 0 < l.length := by
  intro items
  induction items with
  | nil => intro l h; simp [buscarListaMedios] at h
  | cons item resto ih =>
    intro l h
    cases item with
    | str s => exact ih l (by simpa [buscarListaMedios] using h)
    | int n => exact ih l (by simpa [buscarListaMedios] using h)
    | bool b => exact ih l (by simpa [buscarListaMedios] using h)
    | none => exact ih l (by simpa [buscarListaMedios] using h)
    | list ll =>
      by_cases hlen : ll.length > 0
      · obtain ⟨v0, hv0, _⟩ := pyIndex_ok_of_lt ll 0 (by omega)
        cases v0 with
        | str s => exact ih l (by simpa [buscarListaMedios, hlen, hv0] using h)
        | int n => exact ih l (by simpa [buscarListaMedios, hlen, hv0] using h)
        | bool b => exact ih l (by simpa [buscarListaMedios, hlen, hv0] using h)
        | none => exact ih l (by simpa [buscarListaMedios, hlen, hv0] using h)
        | list l0 =>
          by_cases hl0 : l0.length > 0
          · obtain ⟨v00, hv00, _⟩ := pyIndex_ok_of_lt l0 0 (by omega)
            cases v00 with
            | str s =>
              by_cases hs : pyStartsWith s "http" = true
              · have hl : ll = l := by
                  simpa [buscarListaMedios, hlen, hv0, hl0, hv00, hs] using h
                rw [← hl]; exact hlen
              · exact ih l (by simpa [buscarListaMedios, hlen, hv0, hl0, hv00, hs] using h)
            | int n => exact ih l (by simpa [buscarListaMedios, hlen, hv0, hl0, hv00] using h)
            | bool b => exact ih l (by simpa [buscarListaMedios, hlen, hv0, hl0, hv00] using h)
            | none => exact ih l (by simpa [buscarListaMedios, hlen, hv0, hl0, hv00] using h)
            | list z => exact ih l (by simpa [buscarListaMedios, hlen, hv0, hl0, hv00] using h)
          · exact ih l (by simpa [buscarListaMedios, hlen, hv0, hl0] using h)
      · exact ih l (by simpa [buscarListaMedios, hlen] using h)

theorem extraerCuerpo_ok (raw : List PyVal) (t : Int) :
    ∃ r, extraerCuerpo raw t = Except.ok r := by
  by_cases hA : t = STUDIO_AUDIO
  · by_cases h6 : raw.length ≤ 6
    · exact ⟨Option.none, by simp [extraerCuerpo, hA, h6]⟩
    · obtain ⟨metadata, hm, _⟩ := pyIndex_ok_of_lt raw 6 (by omega)
      cases metadata with
      | str s => exact ⟨Option.none, by simp [extraerCuerpo, hA, h6, hm]⟩
      | int n => exact ⟨Option.none, by simp [extraerCuerpo, hA, h6, hm]⟩
      | bool b => exact ⟨Option.none, by simp [extraerCuerpo, hA, h6, hm]⟩
      | none => exact ⟨Option.none, by simp [extraerCuerpo, hA, h6, hm]⟩
      | list ml =>
        by_cases h5 : ml.length ≤ 5
        · exact ⟨Option.none, by simp [extraerCuerpo, hA, h6, hm, h5]⟩
        · obtain ⟨media, hmedia, _⟩ := pyIndex_ok_of_lt ml 5 (by omega)
          cases media with
          | str s => exact ⟨Option.none, by simp [extraerCuerpo, hA, h6, hm, h5, hmedia]⟩
          | int n => exact ⟨Option.none, by simp [extraerCuerpo, hA, h6, hm, h5, hmedia]⟩
          | bool b => exact ⟨Option.none, by simp [extraerCuerpo, hA, h6, hm, h5, hmedia]⟩
          | none => exact ⟨Option.none, by simp [extraerCuerpo, hA, h6, hm, h5, hmedia]⟩
          | list items =>
            by_cases hi : items.length = 0
            · exact ⟨Option.none, by simp [extraerCuerpo, hA, h6, hm, h5, hmedia, hi]⟩
            · obtain ⟨mr, hmr⟩ := buscarMime_ok "audio/mp4" items
              cases mr with
              | some u => exact ⟨some u, by simp [extraerCuerpo, hA, h6, hm, h5, hmedia, hi, hmr]⟩
              | none =>
                obtain ⟨m0, hm0, _⟩ := pyIndex_ok_of_lt items 0 (by omega)
                cases m0 with
                | str s => exact ⟨Option.none, by simp [extraerCuerpo, hA, h6, hm, h5, hmedia, hi, hmr, hm0]⟩
                | int n => exact ⟨Option.none, by simp [extraerCuerpo, hA, h6, hm, h5, hmedia, hi, hmr, hm0]⟩
                | bool b => exact ⟨Option.none, by simp [extraerCuerpo, hA, h6, hm, h5, hmedia, hi, hmr, hm0]⟩
                | none => exact ⟨Option.none, by simp [extraerCuerpo, hA, h6, hm, h5, hmedia, hi, hmr, hm0]⟩
                | list m0l =>
                  by_cases hm0l : m0l.length > 0
                  · obtain ⟨u, hu, _⟩ := pyIndex_ok_of_lt m0l 0 (by omega)
                    exact ⟨some u, by simp [extraerCuerpo, hA, h6, hm, h5, hmedia, hi, hmr, hm0, hm0l, hu]⟩
                  · exact ⟨Option.none, by simp [extraerCuerpo, hA, h6, hm, h5, hmedia, hi, hmr, hm0, hm0l]⟩
  · by_cases hV : t = STUDIO_VIDEO
    · by_cases h8 : raw.length ≤ 8
      · exact ⟨Option.none, by simp [extraerCuerpo, STUDIO_AUDIO, STUDIO_VIDEO, hA, hV, h8]⟩
      · obtain ⟨metadata, hm, _⟩ := pyIndex_ok_of_lt raw 8 (by omega)
        cases metadata with
        | str s => exact ⟨Option.none, by simp [extraerCuerpo, STUDIO_AUDIO, STUDIO_VIDEO, hA, hV, h8, hm]⟩
        | int n => exact ⟨Option.none, by simp [extraerCuerpo, STUDIO_AUDIO, STUDIO_VIDEO, hA, hV, h8, hm]⟩
        | bool b => exact ⟨Option.none, by simp [extraerCuerpo, STUDIO_AUDIO, STUDIO_VIDEO, hA, hV, h8, hm]⟩
        | none => exact ⟨Option.none, by simp [extraerCuerpo, STUDIO_AUDIO, STUDIO_VIDEO, hA, hV, h8, hm]⟩
        | list ml =>
          obtain ⟨bl, hbl⟩ := buscarListaMedios_ok ml
          cases bl with
          | none => exact ⟨Option.none, by simp [extraerCuerpo, STUDIO_AUDIO, STUDIO_VIDEO, hA, hV, h8, hm, hbl]⟩
          | some media_list =>
            obtain ⟨mr, hmr⟩ := buscarMime_ok "video/mp4" media_list
            cases mr with
            | some u => exact ⟨some u, by simp [extraerCuerpo, STUDIO_AUDIO, STUDIO_VIDEO, hA, hV, h8, hm, hbl, hmr]⟩
            | none =>
              by_cases hml : media_list.length > 0
              · obtain ⟨m0, hm0, _⟩ := pyIndex_ok_of_lt media_list 0 (by omega)
                cases m0 with
                | str s => exact ⟨Option.none, by simp [extraerCuerpo, STUDIO_AUDIO, STUDIO_VIDEO, hA, hV, h8, hm, hbl, hmr, hm0]⟩
                | int n => exact ⟨Option.none, by simp [extraerCuerpo, STUDIO_AUDIO, STUDIO_VIDEO, hA, hV, h8, hm, hbl, hmr, hm0]⟩
                | bool b => exact ⟨Option.none, by simp [extraerCuerpo, STUDIO_AUDIO, STUDIO_VIDEO, hA, hV, h8, hm, hbl, hmr, hm0]⟩
                | none => exact ⟨Option.none, by simp [extraerCuerpo, STUDIO_AUDIO, STUDIO_VIDEO, hA, hV, h8, hm, hbl, hmr, hm0]⟩
                | list m0l =>
                  by_cases hm0l : m0l.length > 0
                  · obtain ⟨u, hu, _⟩ := pyIndex_ok_of_lt m0l 0 (by omega)
                    exact ⟨some u, by simp [extraerCuerpo, STUDIO_AUDIO, STUDIO_VIDEO, hA, hV, h8, hm, hbl, hmr, hm0, hm0l, hu]⟩
                  · exact ⟨Option.none, by simp [extraerCuerpo, STUDIO_AUDIO, STUDIO_VIDEO, hA, hV, h8, hm, hbl, hmr, hm0, hm0l]⟩
              · exact absurd (buscarListaMedios_nonempty ml media_list hbl) hml
    · by_cases hI : t = STUDIO_INFOGRAPHIC
      · obtain ⟨r, hr⟩ := buscarInfografia_ok raw.reverse
        exact ⟨r, by simp [extraerCuerpo, STUDIO_AUDIO, STUDIO_VIDEO, STUDIO_INFOGRAPHIC, hA, hV, hI, hr]⟩
      · by_cases hS : t = STUDIO_SLIDE_DECK
        · by_cases h16 : raw.length ≤ 16
          · exact ⟨Option.none, by simp [extraerCuerpo, STUDIO_AUDIO, STUDIO_VIDEO, STUDIO_INFOGRAPHIC, STUDIO_SLIDE_DECK, hA, hV, hI, hS, h16]⟩
          · obtain ⟨metadata, hm, _⟩ := pyIndex_ok_of_lt raw 16 (by omega)
            cases metadata with
            | str s => exact ⟨Option.none, by simp [extraerCuerpo, STUDIO_AUDIO, STUDIO_VIDEO, STUDIO_INFOGRAPHIC, STUDIO_SLIDE_DECK, hA, hV, hI, hS, h16, hm]⟩
            | int n => exact ⟨Option.none, by simp [extraerCuerpo, STUDIO_AUDIO, STUDIO_VIDEO, STUDIO_INFOGRAPHIC, STUDIO_SLIDE_DECK, hA, hV, hI, hS, h16, hm]⟩
            | bool b => exact ⟨Option.none, by simp [extraerCuerpo, STUDIO_AUDIO, STUDIO_VIDEO, STUDIO_INFOGRAPHIC, STUDIO_SLIDE_DECK, hA, hV, hI, hS, h16, hm]⟩
            | none => exact ⟨Option.none, by simp [extraerCuerpo, STUDIO_AUDIO, STUDIO_VIDEO, STUDIO_INFOGRAPHIC, STUDIO_SLIDE_DECK, hA, hV, hI, hS, h16, hm]⟩
            | list ml =>
              by_cases h3 : ml.length ≤ 3
              · exact ⟨Option.none, by simp [extraerCuerpo, STUDIO_AUDIO, STUDIO_VIDEO, STUDIO_INFOGRAPHIC, STUDIO_SLIDE_DECK, hA, hV, hI, hS, h16, hm, h3]⟩
              · obtain ⟨pdf, hpdf, _⟩ := pyIndex_ok_of_lt ml 3 (by omega)
                cases pdf with
                | str s =>
                  by_cases hs : pyStartsWith s "http" = true
                  · exact ⟨some (PyVal.str s), by simp [extraerCuerpo, STUDIO_AUDIO, STUDIO_VIDEO, STUDIO_INFOGRAPHIC, STUDIO_SLIDE_DECK, hA, hV, hI, hS, h16, hm, h3, hpdf, hs]⟩
                  · exact ⟨Option.none, by simp [extraerCuerpo, STUDIO_AUDIO, STUDIO_VIDEO, STUDIO_INFOGRAPHIC, STUDIO_SLIDE_DECK, hA, hV, hI, hS, h16, hm, h3, hpdf, hs]⟩
                | int n => exact ⟨Option.none, by simp [extraerCuerpo, STUDIO_AUDIO, STUDIO_VIDEO, STUDIO_INFOGRAPHIC, STUDIO_SLIDE_DECK, hA, hV, hI, hS, h16, hm, h3, hpdf]⟩
                | bool b => exact ⟨Option.none, by simp [extraerCuerpo, STUDIO_AUDIO, STUDIO_VIDEO, STUDIO_INFOGRAPHIC, STUDIO_SLIDE_DECK, hA, hV, hI, hS, h16, hm, h3, hpdf]⟩
                | none => exact ⟨Option.none, by simp [extraerCuerpo, STUDIO_AUDIO, STUDIO_VIDEO, STUDIO_INFOGRAPHIC, STUDIO_SLIDE_DECK, hA, hV, hI, hS, h16, hm, h3, hpdf]⟩
                | list z => exact ⟨Option.none, by simp [extraerCuerpo, STUDIO_AUDIO, STUDIO_VIDEO, STUDIO_INFOGRAPHIC, STUDIO_SLIDE_DECK, hA, hV, hI, hS, h16, hm, h3, hpdf]⟩
        · exact ⟨Option.none, by simp [extraerCuerpo, hA, hV, hI, hS]⟩

/-- C3: the raw-response decoder is total: for every finite (arbitrarily
nested) list payload and every artifact type code it terminates with
`Except.ok` — a URL value or `None` — and never lets an exception escape
(in fact the body's guards mean the `except (IndexError, TypeError)` clause
is never even reached). -/
theorem extraer_url_total (artifact_raw : List PyVal) (artifact_type : Int) :
    ∃ r : Option PyVal,
      extraer_url_de_artefacto_raw artifact_raw artifact_type = Except.ok r := by
  obtain ⟨r, hr⟩ := extraerCuerpo_ok artifact_raw artifact_type
  exact ⟨r, by simp [extraer_url_de_artefacto_raw, hr]⟩

/-!
## Scheduler lemmas
-/

theorem cuota_casos (tipo g : String) (h : CUOTA_COMPARTIDA tipo = some g) :
    (tipo = "slides" ∨ tipo = "infographic") ∧ g = "premium" := by
  unfold CUOTA_COMPARTIDA at h
  split at h
  · exact ⟨Or.inl rfl, by simpa using h.symm⟩
  · exact ⟨Or.inr rfl, by simpa using h.symm⟩
  · simp at h

/-- The events of one attempt are always a `llamada` followed by one outcome
event, both about the attempted kind. -/
theorem atender_formas (llamar : String → CallResult) (espera : String → Bool)
    (tipo : String) (ag : List (Option String)) :
    ∃ ev : Evento, (atenderTipo llamar espera tipo ag).1 =
      [Evento.llamada tipo, ev] ∧ ev.deTipo = tipo ∧ esLlamada ev = false := by
  cases hll : llamar tipo with
  | raises => exact ⟨Evento.excepcion tipo, by simp [atenderTipo, hll], rfl, rfl⟩
  | returns r =>
    by_cases h1 : tipo = "mind_map"
    · by_cases h2 : r.falsy = false ∧ r.mind_map = true
      · exact ⟨Evento.completado tipo, by subst h1; simp [atenderTipo, hll, h2], rfl, rfl⟩
      · exact ⟨Evento.rechazado tipo "No se pudo generar",
          by subst h1; simp [atenderTipo, hll, h2], rfl, rfl⟩
    · by_cases h3 : r.falsy = false ∧ r.status = some "failed"
      · by_cases h4 : r.is_rate_limited = true
        · exact ⟨Evento.limite tipo, by simp [atenderTipo, hll, h1, h3, h4], rfl, rfl⟩
        · exact ⟨Evento.rechazado tipo (r.errorMsg.getD "Error desconocido"),
            by simp [atenderTipo, hll, h1, h3, h4], rfl, rfl⟩
      · by_cases h5 : r.falsy = false ∧ taskTruthy r = true
        · have hst : ¬ r.status = some "failed" := fun hh => h3 ⟨h5.1, hh⟩
          by_cases h6 : espera tipo = true
          · exact ⟨Evento.completado tipo,
              by simp [atenderTipo, hll, h1, h3, hst, h5, h6], rfl, rfl⟩
          · exact ⟨Evento.excepcion tipo,
              by simp [atenderTipo, hll, h1, h3, hst, h5, h6], rfl, rfl⟩
        · exact ⟨Evento.completado tipo,
            by simp [atenderTipo, hll, h1, h3, h5], rfl, rfl⟩

/-- `cuotas_agotadas` either stays as it was or gets the kind's quota group
added. -/
theorem atender_ag (llamar : String → CallResult) (espera : String → Bool)
    (tipo : String) (ag : List (Option String)) :
    (atenderTipo llamar espera tipo ag).2.2 = ag ∨
    (atenderTipo llamar espera tipo ag).2.2 = CUOTA_COMPARTIDA tipo :: ag := by
  cases hll : llamar tipo with
  | raises => left; simp [atenderTipo, hll]
  | returns r =>
    by_cases h1 : tipo = "mind_map"
    · by_cases h2 : r.falsy = false ∧ r.mind_map = true
      · left; subst h1; simp [atenderTipo, hll, h2]
      · left; subst h1; simp [atenderTipo, hll, h2]
    · by_cases h3 : r.falsy = false ∧ r.status = some "failed"
      · by_cases h4 : r.is_rate_limited = true
        · right; simp [atenderTipo, hll, h1, h3, h4]
        · left; simp [atenderTipo, hll, h1, h3, h4]
      · by_cases h5 : r.falsy = false ∧ taskTruthy r = true
        · have hst : ¬ r.status = some "failed" := fun hh => h3 ⟨h5.1, hh⟩
          by_cases h6 : espera tipo = true
          · left; simp [atenderTipo, hll, h1, h3, hst, h5, h6]
          · left; simp [atenderTipo, hll, h1, h3, hst, h5, h6]
        · left; simp [atenderTipo, hll, h1, h3, h5]

theorem atender_deTipo (llamar : String → CallResult) (espera : String → Bool)
    (tipo : String) (ag : List (Option String)) :
    ∀ e ∈ (atenderTipo llamar espera tipo ag).1, e.deTipo = tipo := by
  intro e he
  obtain ⟨ev, hf, hdt, -⟩ := atender_formas llamar espera tipo ag
  rw [hf] at he
  simp at he
  rcases he with rfl | rfl
  · rfl
  · exact hdt

theorem atender_subset (llamar : String → CallResult) (espera : String → Bool)
    (tipo : String) (ag : List (Option String)) :
    ∀ x ∈ ag, x ∈ (atenderTipo llamar espera tipo ag).2.2 := by
  intro x hx
  rcases atender_ag llamar espera tipo ag with h | h <;> rw [h] <;> simp [hx]

theorem paso_deTipo (llamar : String → CallResult) (espera : String → Bool)
    (tipo : String) (ag : List (Option String)) :
    ∀ e ∈ (paso llamar espera tipo ag).1, e.deTipo = tipo := by
  intro e he
  unfold paso at he
  split at he
  · simp at he
    subst he; rfl
  · exact atender_deTipo llamar espera tipo ag e he

theorem paso_subset (llamar : String → CallResult) (espera : String → Bool)
    (tipo : String) (ag : List (Option String)) :
    ∀ x ∈ ag, x ∈ (paso llamar espera tipo ag).2.2 := by
  intro x hx
  unfold paso
  split
  · exact hx
  · exact atender_subset llamar espera tipo ag x hx

theorem paso_omitir (llamar : String → CallResult) (espera : String → Bool)
    (tipo : String) (ag : List (Option String))
    (h : debeOmitir tipo ag = true) :
    paso llamar espera tipo ag = ([Evento.omitido tipo], 0, ag) := by
  unfold paso
  rw [h]
  simp

theorem debeOmitir_de_grupo (tipo g : String) (ag : List (Option String))
    (hg : CUOTA_COMPARTIDA tipo = some g) (hm : (some g) ∈ ag) :
    debeOmitir tipo ag = true := by
  unfold debeOmitir
  rw [hg]
  simpa using hm

/-- A rate-limited immediate failure on a kind with quota group `g` marks
`g` as exhausted (common.py line 487). -/
theorem paso_marca (llamar : String → CallResult) (espera : String → Bool)
    (tipo g : String) (ag : List (Option String)) (r : GenResult)
    (hg : CUOTA_COMPARTIDA tipo = some g)
    (hnm : (some g) ∉ ag)
    (hll : llamar tipo = CallResult.returns r)
    (hf : r.falsy = false) (hs : r.status = some "failed")
    (hrl : r.is_rate_limited = true) :
    paso llamar espera tipo ag =
      ([Evento.llamada tipo, Evento.limite tipo], 0, (some g) :: ag) := by
  have htipo : tipo ≠ "mind_map" := by
    rcases (cuota_casos tipo g hg).1 with h | h <;> subst h <;> decide
  have hnoom : debeOmitir tipo ag = false := by
    unfold debeOmitir
    rw [hg]
    simpa using hnm
  unfold paso
  rw [hnoom]
  simp only [Bool.false_eq_true, if_false]
  unfold atenderTipo
  rw [hll, hg]
  simp [htipo, hf, hs, hrl]

/-- Running the loop over registered kinds always succeeds; the exhausted-set
only grows, and every emitted event is about one of the processed kinds. -/
theorem lazo_ok (llamar : String → CallResult) (espera : String → Bool) :
    ∀ (l : List String) (ag : List (Option String)),
    (∀ x ∈ l, (CONFIG_ARTEFACTOS x).isSome = true) →
    ∃ n tr agf, generarLazo llamar espera l ag = Except.ok (n, tr, agf) ∧
      (∀ x ∈ ag, x ∈ agf) ∧ (∀ e ∈ tr, e.deTipo ∈ l) := by
  intro l
  induction l with
  | nil =>
    intro ag _
    exact ⟨0, [], ag, rfl, fun x hx => hx, by simp⟩
  | cons tipo resto ih =>
    intro ag hreg
    have hconf := hreg tipo (by simp)
    rcases hcfg : CONFIG_ARTEFACTOS tipo with _ | cfg
    · rw [hcfg] at hconf; simp at hconf
    · rcases hp : paso llamar espera tipo ag with ⟨evts, dn2, ag2⟩
      obtain ⟨n, tr, agf, hlazo, hsub, hdt⟩ :=
        ih ag2 (fun x hx => hreg x (by simp [hx]))
      have h1 : (paso llamar espera tipo ag).1 = evts := by rw [hp]
      have h22 : (paso llamar espera tipo ag).2.2 = ag2 := by rw [hp]
      refine ⟨dn2 + n, evts ++ tr, agf, ?_, ?_, ?_⟩
      · simp [generarLazo, hcfg, hp, hlazo]
      · intro x hx
        exact hsub x (h22 ▸ paso_subset llamar espera tipo ag x hx)
      · intro e he
        rcases List.mem_append.mp he with h | h
        · have := paso_deTipo llamar espera tipo ag e (h1 ▸ h)
          simp [this]
        · exact List.mem_cons_of_mem tipo (hdt e h)

/-- Once a quota group is in `cuotas_agotadas`, every later kind of that
group is skipped (an `omitido` event, no `llamada` event): exhaustion is
monotone for the rest of the run. -/
theorem lazo_quota (llamar : String → CallResult) (espera : String → Bool)
    (g : String) :
    ∀ (l : List String) (ag : List (Option String)) (n : Nat)
      (tr : List Evento) (agf : List (Option String)),
    (some g) ∈ ag →
    generarLazo llamar espera l ag = Except.ok (n, tr, agf) →
    ∀ k, CUOTA_COMPARTIDA k = some g →
      ((k ∈ l → Evento.omitido k ∈ tr) ∧ Evento.llamada k ∉ tr) := by
  intro l
  induction l with
  | nil =>
    intro ag n tr agf hg hlazo k hk
    simp [generarLazo] at hlazo
    obtain ⟨-, htr, -⟩ := hlazo
    subst htr
    exact ⟨by simp, by simp⟩
  | cons tipo resto ih =>
    intro ag n tr agf hg hlazo k hk
    rcases hcfg : CONFIG_ARTEFACTOS tipo with _ | cfg
    · simp [generarLazo, hcfg] at hlazo
    · rcases hp : paso llamar espera tipo ag with ⟨evts, dn2, ag2⟩
      have h1 : (paso llamar espera tipo ag).1 = evts := by rw [hp]
      have h22 : (paso llamar espera tipo ag).2.2 = ag2 := by rw [hp]
      cases hrest : generarLazo llamar espera resto ag2 with
      | error e =>
        simp [generarLazo, hcfg, hp, hrest] at hlazo
      | ok t3 =>
        rcases t3 with ⟨n2, tr2, agf2⟩
        simp [generarLazo, hcfg, hp, hrest] at hlazo
        obtain ⟨-, htr, -⟩ := hlazo
        subst htr
        have hg2 : (some g) ∈ ag2 :=
          h22 ▸ paso_subset llamar espera tipo ag (some g) hg
        have IH := ih ag2 n2 tr2 agf2 hg2 hrest k hk
        constructor
        · intro hkmem
          rcases List.mem_cons.mp hkmem with rfl | hkr
          · have hdo := debeOmitir_de_grupo k g ag hk hg
            have hpaso := paso_omitir llamar espera k ag hdo
            rw [hpaso] at hp
            obtain ⟨hevts, -, -⟩ := Prod.mk.injEq .. |>.mp hp
            rw [← hevts]
            simp
          · exact List.mem_append_right evts (IH.1 hkr)
        · intro hll
          rcases List.mem_append.mp hll with h | h
          · have hkt : k = tipo :=
              paso_deTipo llamar espera tipo ag (Evento.llamada k) (h1 ▸ h)
            subst hkt
            have hdo := debeOmitir_de_grupo k g ag hk hg
            have hpaso := paso_omitir llamar espera k ag hdo
            rw [hpaso] at hp
            obtain ⟨hevts, -, -⟩ := Prod.mk.injEq .. |>.mp hp
            rw [← hevts] at h
            simp at h
          · exact IH.2 h

/-- Splitting a run over a concatenated kind list: the second half starts
from the exhausted-set the first half ends with. -/
theorem lazo_append_ok (llamar : String → CallResult) (espera : String → Bool) :
    ∀ (l1 : List String) (l2 : List String) (ag : List (Option String))
      (n1 : Nat) (tr1 : List Evento) (ag1 : List (Option String))
      (n2 : Nat) (tr2 : List Evento) (ag2 : List (Option String)),
    generarLazo llamar espera l1 ag = Except.ok (n1, tr1, ag1) →
    generarLazo llamar espera l2 ag1 = Except.ok (n2, tr2, ag2) →
    generarLazo llamar espera (l1 ++ l2) ag =
      Except.ok (n1 + n2, tr1 ++ tr2, ag2) := by
  intro l1
  induction l1 with
  | nil =>
    intro l2 ag n1 tr1 ag1 n2 tr2 ag2 h1 h2
    simp [generarLazo] at h1
    obtain ⟨hn, htr, hag⟩ := h1
    subst hn; subst htr; subst hag
    simpa using h2
  | cons tipo resto ih =>
    intro l2 ag n1 tr1 ag1 n2 tr2 ag2 h1 h2
    rcases hcfg : CONFIG_ARTEFACTOS tipo with _ | cfg
    · simp [generarLazo, hcfg] at h1
    · rcases hp : paso llamar espera tipo ag with ⟨evts, dn2, agp⟩
      cases hrest : generarLazo llamar espera resto agp with
      | error e =>
        simp [generarLazo, hcfg, hp, hrest] at h1
      | ok t3 =>
        rcases t3 with ⟨np, trp, agfp⟩
        simp [generarLazo, hcfg, hp, hrest] at h1
        obtain ⟨hn, htr, hag⟩ := h1
        subst hn; subst htr; subst hag
        have h3 := ih l2 agp np trp agfp n2 tr2 ag2 hrest h2
        simp [generarLazo, hcfg, hp, h3, List.append_assoc]
        omega

/-- An immediate-success generation response (`status` not `"failed"`, no
task id). -/
def exitoInmediato : GenResult :=
  { falsy := false, status := Option.none, is_rate_limited := false,
    errorMsg := Option.none, task_id := Option.none, mind_map := false }

/-- An immediate failure carrying the rate-limit flag. -/
def fracasoLimite : GenResult :=
  { falsy := false, status := some "failed", is_rate_limited := true,
    errorMsg := Option.none, task_id := Option.none, mind_map := false }

/-- An immediate failure without the rate-limit flag. -/
def fracasoRechazo : GenResult :=
  { falsy := false, status := some "failed", is_rate_limited := false,
    errorMsg := Option.none, task_id := Option.none, mind_map := false }

/-- C1: once a generation call for a kind of quota group `g` returns an
immediate rate-limited failure, the group stays marked for the rest of the
run and every not-yet-attempted kind of the same group later in the list is
skipped — an `omitido` event (the console's "shared quota exhausted"
rejection) and no generation call (`llamada`) is ever issued for it. -/
theorem generar_cuota_compartida
    (llamar : String → CallResult) (espera : String → Bool)
    (pre post : List String) (t k g : String) (r : GenResult)
    (hreg : ∀ x ∈ pre ++ t :: post, (CONFIG_ARTEFACTOS x).isSome = true)
    (hgt : CUOTA_COMPARTIDA t = some g)
    (hll : llamar t = CallResult.returns r)
    (hf : r.falsy = false) (hs : r.status = some "failed")
    (hrl : r.is_rate_limited = true)
    (hkpost : k ∈ post) (hgk : CUOTA_COMPARTIDA k = some g)
    (hkpre : k ∉ pre) (hkt : k ≠ t) :
    ∃ n tr,
      generarEventos llamar espera (pre ++ t :: post) = Except.ok (n, tr) ∧
      Evento.omitido k ∈ tr ∧ Evento.llamada k ∉ tr := by
  obtain ⟨n1, tr1, ag1, hpre, hsub1, hdt1⟩ :=
    lazo_ok llamar espera pre [] (fun x hx => hreg x (List.mem_append_left _ hx))
  rcases hp : paso llamar espera t ag1 with ⟨evtsT, dnT, ag2⟩
  have h1T : (paso llamar espera t ag1).1 = evtsT := by rw [hp]
  have hg2 : (some g) ∈ ag2 := by
    by_cases hmem : (some g) ∈ ag1
    · have hpaso := paso_omitir llamar espera t ag1
        (debeOmitir_de_grupo t g ag1 hgt hmem)
      rw [hpaso] at hp
      have hag : ag1 = ag2 := congrArg (fun p => p.2.2) hp
      rw [← hag]
      exact hmem
    · have hpaso := paso_marca llamar espera t g ag1 r hgt hmem hll hf hs hrl
      rw [hpaso] at hp
      have hag : (some g) :: ag1 = ag2 := congrArg (fun p => p.2.2) hp
      rw [← hag]
      simp
  obtain ⟨n2, tr2, agf, hpost, hsub2, hdt2⟩ :=
    lazo_ok llamar espera post ag2 (fun x hx => hreg x (by simp [hx]))
  have hquota := lazo_quota llamar espera g post ag2 n2 tr2 agf hg2 hpost k hgk
  have hconfT := hreg t (by simp)
  obtain ⟨cfgT, hcfgT⟩ := Option.isSome_iff_exists.mp hconfT
  have hmid : generarLazo llamar espera (t :: post) ag1 =
      Except.ok (dnT + n2, evtsT ++ tr2, agf) := by
    simp [generarLazo, hcfgT, hp, hpost]
  have htot := lazo_append_ok llamar espera pre (t :: post) [] n1 tr1 ag1
    (dnT + n2) (evtsT ++ tr2) agf hpre hmid
  refine ⟨n1 + (dnT + n2), tr1 ++ (evtsT ++ tr2), ?_, ?_, ?_⟩
  · simp [generarEventos, htot]
  · exact List.mem_append_right tr1 (List.mem_append_right evtsT (hquota.1 hkpost))
  · intro hmem
    rcases List.mem_append.mp hmem with h | h
    · exact hkpre (hdt1 (Evento.llamada k) h)
    · rcases List.mem_append.mp h with h2 | h2
      · exact hkt (paso_deTipo llamar espera t ag1 (Evento.llamada k) (h1T ▸ h2))
      · exact hquota.2 h2

/-- The oracle of the C1 witness: slides fails rate-limited, everything else
succeeds immediately. -/
def llamarLimiteSlides : String → CallResult := fun t =>
  if t = "slides" then CallResult.returns fracasoLimite
  else CallResult.returns exitoInmediato

theorem generar_cuota_compartida_witness :
    ∃ n tr,
      generarEventos llamarLimiteSlides (fun _ => true)
        ["report", "slides", "infographic"] = Except.ok (n, tr) ∧
      Evento.omitido "infographic" ∈ tr ∧
      Evento.llamada "infographic" ∉ tr :=
  generar_cuota_compartida llamarLimiteSlides (fun _ => true)
    ["report"] ["infographic"] "slides" "infographic" "premium" fracasoLimite
    (by decide) (by decide) (by decide) (by decide) (by decide) (by decide)
    (by decide) (by decide) (by decide) (by decide)

/-- An error in the second half of a run aborts the concatenated run. -/
theorem lazo_append_error (llamar : String → CallResult) (espera : String → Bool) :
    ∀ (l1 : List String) (l2 : List String) (ag : List (Option String))
      (n1 : Nat) (tr1 : List Evento) (ag1 : List (Option String)) (e : PyExc),
    generarLazo llamar espera l1 ag = Except.ok (n1, tr1, ag1) →
    generarLazo llamar espera l2 ag1 = Except.error e →
    generarLazo llamar espera (l1 ++ l2) ag = Except.error e := by
  intro l1
  induction l1 with
  | nil =>
    intro l2 ag n1 tr1 ag1 e h1 h2
    simp [generarLazo] at h1
    obtain ⟨-, -, hag⟩ := h1
    subst hag
    simpa using h2
  | cons tipo resto ih =>
    intro l2 ag n1 tr1 ag1 e h1 h2
    rcases hcfg : CONFIG_ARTEFACTOS tipo with _ | cfg
    · simp [generarLazo, hcfg] at h1
    · rcases hp : paso llamar espera tipo ag with ⟨evts, dn2, agp⟩
      cases hrest : generarLazo llamar espera resto agp with
      | error e2 =>
        simp [generarLazo, hcfg, hp, hrest] at h1
      | ok t3 =>
        rcases t3 with ⟨np, trp, agfp⟩
        simp [generarLazo, hcfg, hp, hrest] at h1
        obtain ⟨-, -, hag⟩ := h1
        subst hag
        have h3 := ih l2 agp np trp _ e hrest h2
        simp [generarLazo, hcfg, hp, h3]

/-- C10: an unregistered kind in `faltantes` makes the run abort with
`KeyError`: the `CONFIG_ARTEFACTOS[tipo]` lookup happens outside the
per-kind `try/except`, so once the loop reaches the unregistered element
(after processing the registered prefix) the whole batch aborts and no count
is returned. -/
theorem generar_keyerror (llamar : String → CallResult) (espera : String → Bool)
    (pre post : List String) (tipo : String)
    (hpre : ∀ x ∈ pre, (CONFIG_ARTEFACTOS x).isSome = true)
    (hbad : CONFIG_ARTEFACTOS tipo = Option.none) :
    generar_artefactos llamar espera (pre ++ tipo :: post) =
      Except.error PyExc.keyError := by
  obtain ⟨n1, tr1, ag1, hpre2, -, -⟩ := lazo_ok llamar espera pre [] hpre
  have hmid : generarLazo llamar espera (tipo :: post) ag1 =
      Except.error PyExc.keyError := by
    simp [generarLazo, hbad]
  have htot := lazo_append_error llamar espera pre (tipo :: post) [] n1 tr1 ag1
    PyExc.keyError hpre2 hmid
  simp [generar_artefactos, htot]

/-- An oracle whose every call succeeds immediately. -/
def llamarExito : String → CallResult := fun _ => CallResult.returns exitoInmediato

/-- A `wait_for_completion` model that never raises. -/
def esperaOk : String → Bool := fun _ => true

theorem generar_keyerror_witness :
    generar_artefactos llamarExito esperaOk ["report", "foo"] =
      Except.error PyExc.keyError :=
  generar_keyerror llamarExito esperaOk ["report"] [] "foo"
    (by decide) (by decide)

/-- A call that is not an immediate rate-limited failure leaves
`cuotas_agotadas` unchanged. -/
theorem atender_sin_limite (llamar : String → CallResult) (espera : String → Bool)
    (tipo : String) (ag : List (Option String))
    (hnl : respuestaLimitada (llamar tipo) = false) :
    (atenderTipo llamar espera tipo ag).2.2 = ag := by
  cases hll : llamar tipo with
  | raises => simp [atenderTipo, hll]
  | returns r =>
    rw [hll] at hnl
    by_cases h1 : tipo = "mind_map"
    · by_cases h2 : r.falsy = false ∧ r.mind_map = true
      · subst h1; simp [atenderTipo, hll, h2]
      · subst h1; simp [atenderTipo, hll, h2]
    · by_cases h3 : r.falsy = false ∧ r.status = some "failed"
      · have h4 : r.is_rate_limited = false := by
          rcases h3 with ⟨hf, hs⟩
          simpa [respuestaLimitada, hf, hs] using hnl
        simp [atenderTipo, hll, h1, h3, h4]
      · by_cases h5 : r.falsy = false ∧ taskTruthy r = true
        · have hst : ¬ r.status = some "failed" := fun hh => h3 ⟨h5.1, hh⟩
          by_cases h6 : espera tipo = true
          · simp [atenderTipo, hll, h1, h3, hst, h5, h6]
          · simp [atenderTipo, hll, h1, h3, hst, h5, h6]
        · simp [atenderTipo, hll, h1, h3, h5]

theorem debeOmitir_nil (tipo : String) : debeOmitir tipo [] = false := by
  unfold debeOmitir
  cases CUOTA_COMPARTIDA tipo <;> simp

theorem tipoDeLlamada_none (ev : Evento) (h : esLlamada ev = false) :
    tipoDeLlamada ev = Option.none := by
  cases ev <;> simp_all [esLlamada, tipoDeLlamada]

/-- When no call is rate-limited, the run over registered kinds issues
exactly one generation call per requested kind, in the caller-supplied
order. -/
theorem lazo_orden (llamar : String → CallResult) (espera : String → Bool) :
    ∀ l : List String,
    (∀ x ∈ l, (CONFIG_ARTEFACTOS x).isSome = true) →
    (∀ x ∈ l, respuestaLimitada (llamar x) = false) →
    ∃ n tr, generarLazo llamar espera l [] = Except.ok (n, tr, []) ∧
      llamadasDe tr = l := by
  intro l
  induction l with
  | nil => exact fun _ _ => ⟨0, [], rfl, rfl⟩
  | cons tipo resto ih =>
    intro hreg hnl
    obtain ⟨cfg, hcfg⟩ :=
      Option.isSome_iff_exists.mp (hreg tipo (by simp))
    obtain ⟨n, tr, hlazo, hll⟩ :=
      ih (fun x hx => hreg x (by simp [hx])) (fun x hx => hnl x (by simp [hx]))
    have hpaso : paso llamar espera tipo [] = atenderTipo llamar espera tipo [] := by
      simp [paso, debeOmitir_nil]
    obtain ⟨ev, hforma, -, hnoc⟩ := atender_formas llamar espera tipo []
    have hag : (atenderTipo llamar espera tipo []).2.2 = [] :=
      atender_sin_limite llamar espera tipo [] (hnl tipo (by simp))
    refine ⟨(atenderTipo llamar espera tipo []).2.1 + n,
      [Evento.llamada tipo, ev] ++ tr, ?_, ?_⟩
    · rcases hp : atenderTipo llamar espera tipo [] with ⟨evts, dn, ag2⟩
      have hevts : evts = [Evento.llamada tipo, ev] := by rw [hp] at hforma; exact hforma
      have hag2 : ag2 = [] := by rw [hp] at hag; exact hag
      subst hevts; subst hag2
      simp [generarLazo, hcfg, hpaso, hp, hlazo]
    · have h1 : tipoDeLlamada (Evento.llamada tipo) = some tipo := rfl
      simp [llamadasDe, List.filterMap_cons, h1, tipoDeLlamada_none ev hnoc]
      exact hll

/-- C2 counterexample: on the caller-supplied list `["audio", "report"]` the
scheduler issues the audio generation call first and the report call after
it — the list is not re-sorted to the canonical registry order (in which
report precedes audio), so the claimed "report before audio" is false. -/
theorem generar_orden_contraejemplo :
    generarEventos llamarExito esperaOk ["audio", "report"] =
      Except.ok (2, [Evento.llamada "audio", Evento.completado "audio",
        Evento.llamada "report", Evento.completado "report"]) ∧
    (∀ i j : Nat,
      [Evento.llamada "audio", Evento.completado "audio",
        Evento.llamada "report", Evento.completado "report"].get? i =
          some (Evento.llamada "report") →
      [Evento.llamada "audio", Evento.completado "audio",
        Evento.llamada "report", Evento.completado "report"].get? j =
          some (Evento.llamada "audio") →
      j < i) := by
  constructor
  · decide
  · intro i j hi hj
    have hi2 : i = 2 := by
      rcases i with _ | _ | _ | _ | i <;> simp_all
    have hj0 : j = 0 := by
      rcases j with _ | _ | _ | _ | j <;> simp_all
    omega

/-- C2 (amended): the scheduler iterates the caller-supplied list as given —
no re-sort to registry order.  Whenever all requested kinds are registered
and no call hits the rate limit, exactly one generation call is issued per
requested kind, in the caller-supplied order.  (Canonical order holds in the
application only because the callers build `faltantes` in registry order.) -/
theorem generar_orden_entrada (llamar : String → CallResult)
    (espera : String → Bool) (l : List String)
    (hreg : ∀ x ∈ l, (CONFIG_ARTEFACTOS x).isSome = true)
    (hnl : ∀ x ∈ l, respuestaLimitada (llamar x) = false) :
    ∃ n tr, generarEventos llamar espera l = Except.ok (n, tr) ∧
      llamadasDe tr = l := by
  obtain ⟨n, tr, hlazo, hll⟩ := lazo_orden llamar espera l hreg hnl
  exact ⟨n, tr, by simp [generarEventos, hlazo], hll⟩

theorem generar_orden_entrada_witness :
    ∃ n tr, generarEventos llamarExito esperaOk ["audio", "report"] =
      Except.ok (n, tr) ∧ llamadasDe tr = ["audio", "report"] :=
  generar_orden_entrada llamarExito esperaOk ["audio", "report"]
    (by decide) (by decide)

/-- The `exitosos` increment of one attempt equals the number of
`completado` events it emits. -/
theorem atender_conteo (llamar : String → CallResult) (espera : String → Bool)
    (tipo : String) (ag : List (Option String)) :
    (atenderTipo llamar espera tipo ag).2.1 =
      ((atenderTipo llamar espera tipo ag).1.filter esCompletado).length := by
  cases hll : llamar tipo with
  | raises => simp [atenderTipo, hll, esCompletado]
  | returns r =>
    by_cases h1 : tipo = "mind_map"
    · by_cases h2 : r.falsy = false ∧ r.mind_map = true
      · subst h1; simp [atenderTipo, hll, h2, esCompletado]
      · subst h1; simp [atenderTipo, hll, h2, esCompletado]
    · by_cases h3 : r.falsy = false ∧ r.status = some "failed"
      · by_cases h4 : r.is_rate_limited = true
        · simp [atenderTipo, hll, h1, h3, h4, esCompletado]
        · simp [atenderTipo, hll, h1, h3, h4, esCompletado]
      · by_cases h5 : r.falsy = false ∧ taskTruthy r = true
        · have hst : ¬ r.status = some "failed" := fun hh => h3 ⟨h5.1, hh⟩
          by_cases h6 : espera tipo = true
          · simp [atenderTipo, hll, h1, h3, hst, h5, h6, esCompletado]
          · simp [atenderTipo, hll, h1, h3, hst, h5, h6, esCompletado]
        · simp [atenderTipo, hll, h1, h3, h5, esCompletado]

theorem paso_conteo (llamar : String → CallResult) (espera : String → Bool)
    (tipo : String) (ag : List (Option String)) :
    (paso llamar espera tipo ag).2.1 =
      ((paso llamar espera tipo ag).1.filter esCompletado).length := by
  unfold paso
  split
  · simp [esCompletado]
  · exact atender_conteo llamar espera tipo ag

/-- The count the loop accumulates equals the number of `completado` events
in its trace. -/
theorem lazo_conteo (llamar : String → CallResult) (espera : String → Bool) :
    ∀ (l : List String) (ag : List (Option String)) (n : Nat)
      (tr : List Evento) (agf : List (Option String)),
    generarLazo llamar espera l ag = Except.ok (n, tr, agf) →
    n = (tr.filter esCompletado).length := by
  intro l
  induction l with
  | nil =>
    intro ag n tr agf hlazo
    simp [generarLazo] at hlazo
    obtain ⟨hn, htr, -⟩ := hlazo
    subst hn; subst htr
    rfl
  | cons tipo resto ih =>
    intro ag n tr agf hlazo
    rcases hcfg : CONFIG_ARTEFACTOS tipo with _ | cfg
    · simp [generarLazo, hcfg] at hlazo
    · rcases hp : paso llamar espera tipo ag with ⟨evts, dn2, agp⟩
      have h21 : (paso llamar espera tipo ag).2.1 = dn2 := by rw [hp]
      have h1 : (paso llamar espera tipo ag).1 = evts := by rw [hp]
      cases hrest : generarLazo llamar espera resto agp with
      | error e => simp [generarLazo, hcfg, hp, hrest] at hlazo
      | ok t3 =>
        rcases t3 with ⟨np, trp, agfp⟩
        simp [generarLazo, hcfg, hp, hrest] at hlazo
        obtain ⟨hn, htr, -⟩ := hlazo
        subst hn; subst htr
        have hdn : dn2 = (evts.filter esCompletado).length := by
          rw [← h21, ← h1]
          exact paso_conteo llamar espera tipo ag
        have hnp := ih agp np trp agfp hrest
        simp [List.filter_append, hdn, hnp]

/-- The oracle of the C9 counterexample runs: audio rejected, report ok. -/
def llamarRechazaAudio : String → CallResult := fun t =>
  if t = "audio" then CallResult.returns fracasoRechazo
  else CallResult.returns exitoInmediato

/-- The oracle of the C9 counterexample runs: report rejected, audio ok. -/
def llamarRechazaReport : String → CallResult := fun t =>
  if t = "report" then CallResult.returns fracasoRechazo
  else CallResult.returns exitoInmediato

/-- C9 counterexample: `generar_artefactos` returns only the success count.
Two runs over `["report", "audio"]` in which different kinds succeed give
the same return value `Except.ok 1`, while the per-kind outcomes (visible
only in the console trace) differ — so the caller cannot recover from the
return value which kind ended in which terminal state, and no outcome map is
returned. -/
theorem generar_retorno_contraejemplo :
    generar_artefactos llamarRechazaAudio esperaOk ["report", "audio"] =
      Except.ok 1 ∧
    generar_artefactos llamarRechazaReport esperaOk ["report", "audio"] =
      Except.ok 1 ∧
    generarEventos llamarRechazaAudio esperaOk ["report", "audio"] =
      Except.ok (1, [Evento.llamada "report", Evento.completado "report",
        Evento.llamada "audio", Evento.rechazado "audio" "Error desconocido"]) ∧
    generarEventos llamarRechazaReport esperaOk ["report", "audio"] =
      Except.ok (1, [Evento.llamada "report",
        Evento.rechazado "report" "Error desconocido",
        Evento.llamada "audio", Evento.completado "audio"]) := by
  refine ⟨by decide, by decide, by decide, by decide⟩

/-- C9 (amended): for every run that completes, `generar_artefactos` returns
exactly the number of successful generations — the count of `completado`
outcomes of the run — and nothing else; the ordered per-kind outcomes are
emitted to the console (the event trace), not returned. -/
theorem generar_retorno_conteo (llamar : String → CallResult)
    (espera : String → Bool) (l : List String) (n : Nat) (tr : List Evento)
    (h : generarEventos llamar espera l = Except.ok (n, tr)) :
    generar_artefactos llamar espera l = Except.ok n ∧
      n = (tr.filter esCompletado).length := by
  cases hl : generarLazo llamar espera l [] with
  | error e => simp [generarEventos, hl] at h
  | ok t3 =>
    rcases t3 with ⟨n0, tr0, agf⟩
    simp [generarEventos, hl] at h
    obtain ⟨hn, htr⟩ := h
    subst hn; subst htr
    exact ⟨by simp [generar_artefactos, hl],
      lazo_conteo llamar espera l [] n0 tr0 agf hl⟩

theorem generar_retorno_conteo_witness :
    generar_artefactos llamarRechazaAudio esperaOk ["report", "audio"] =
      Except.ok 1 ∧
    (1 : Nat) = (([Evento.llamada "report", Evento.completado "report",
      Evento.llamada "audio",
      Evento.rechazado "audio" "Error desconocido"].filter esCompletado).length) :=
  generar_retorno_conteo llamarRechazaAudio esperaOk ["report", "audio"] 1
    [Evento.llamada "report", Evento.completado "report",
     Evento.llamada "audio", Evento.rechazado "audio" "Error desconocido"]
    (by decide)

/-!
## Scanner and language-filter claims
-/

/-- C5: the language predicate is a case-insensitive prefix match with a
permissive default: `language="es-ES"` matches the filter `"es"`;
`language="en-US"` does not; a record with no language attribute (or an
empty one — both falsy in Python) matches every filter. -/
theorem artefacto_idioma_casos (i : String) (t : Option String) (f : String) :
    artefacto_tiene_idioma
      { id := i, title := t, language := some "es-ES" } "es" = true ∧
    artefacto_tiene_idioma
      { id := i, title := t, language := some "en-US" } "es" = false ∧
    artefacto_tiene_idioma
      { id := i, title := t, language := Option.none } f = true ∧
    artefacto_tiene_idioma
      { id := i, title := t, language := some "" } f = true :=
  ⟨rfl, rfl, rfl, rfl⟩

/-- C4: the per-kind listing queries of the scanner are isolated.  If the
listing for kind `k` raises, the snapshot maps `k` to `[]`, and every other
kind's entry is what it would have been under any oracle that behaves
identically on the other kinds (the failure does not influence them and
does not propagate). -/
theorem verificar_aislamiento
    (listar listar2 : String → Except String (List Artefacto))
    (idioma : String) (k : String) (msg : String)
    (hk : k ∈ ORDEN_ARTEFACTOS)
    (herr : listar k = Except.error msg)
    (hagree : ∀ k2, k2 ≠ k → listar2 k2 = listar k2) :
    verificar_artefactos_existentes listar idioma k = [] ∧
    (∀ k2 ∈ ORDEN_ARTEFACTOS, k2 ≠ k →
      verificar_artefactos_existentes listar idioma k2 =
        verificar_artefactos_existentes listar2 idioma k2) := by
  constructor
  · fin_cases hk <;>
      simp [verificar_artefactos_existentes, listarKind, herr, filtrarIdioma]
  · intro k2 hk2 hne
    have hag := hagree k2 hne
    fin_cases hk2 <;>
      simp [verificar_artefactos_existentes, listarKind, hag]

/-- The failing oracle of the C4 witness: the audio listing raises, every
other kind lists nothing. -/
def listarErrAudio : String → Except String (List Artefacto) := fun k =>
  if k = "audio" then Except.error "HTTP 500" else Except.ok []

/-- The healthy oracle of the C4 witness: identical to `listarErrAudio`
except that the audio listing succeeds. -/
def listarOkAudio : String → Except String (List Artefacto) := fun k =>
  if k = "audio" then
    Except.ok [{ id := "a1", title := Option.none, language := some "es" }]
  else Except.ok []

theorem verificar_aislamiento_witness :
    verificar_artefactos_existentes listarErrAudio "es" "audio" = [] ∧
    (∀ k2 ∈ ORDEN_ARTEFACTOS, k2 ≠ "audio" →
      verificar_artefactos_existentes listarErrAudio "es" k2 =
        verificar_artefactos_existentes listarOkAudio "es" k2) :=
  verificar_aislamiento listarErrAudio listarOkAudio "es" "audio" "HTTP 500"
    (by decide) (by decide)
    (fun k2 hne => by simp [listarOkAudio, listarErrAudio, hne])

/-- The oracle of the C6 counterexample: one mind-map record in English,
nothing else. -/
def listarMindMapEn : String → Except String (List Artefacto) := fun k =>
  if k = "mind_map" then
    Except.ok [{ id := "mm1", title := Option.none, language := some "en-US" }]
  else Except.ok []

/-- C6 counterexample: a mind-map record whose language `"en-US"` does not
match the requested `"es"` is nevertheless retained in the snapshot — the
scanner stores mind maps unfiltered (common.py line 343), contradicting the
claim that mind-map content is language-filtered. -/
theorem verificar_mindmap_contraejemplo :
    verificar_artefactos_existentes listarMindMapEn "es" "mind_map" =
      [{ id := "mm1", title := Option.none, language := some "en-US" }] ∧
    artefacto_tiene_idioma
      { id := "mm1", title := Option.none, language := some "en-US" } "es" =
      false :=
  ⟨rfl, rfl⟩

/-- The append-loop filter of the scanner is `List.filter` of the language
predicate. -/
theorem filtrarIdioma_eq_filter (idioma : String) :
    ∀ l : List Artefacto,
    filtrarIdioma idioma l = l.filter (fun a => artefacto_tiene_idioma a idioma) := by
  intro l
  induction l with
  | nil => rfl
  | cons r resto ih =>
    by_cases h : artefacto_tiene_idioma r idioma
    · simp [filtrarIdioma, h, ih]
    · simp [filtrarIdioma, h, ih]

/-- C6 (amended): in the scanner only reports and audio are filtered to the
records matching the requested language; mind maps are retained unfiltered,
exactly like slides, infographics, video, data tables, quizzes and
flashcards. -/
theorem verificar_filtrado_por_tipo
    (listar : String → Except String (List Artefacto)) (idioma : String) :
    verificar_artefactos_existentes listar idioma "report" =
      (listarKind listar "report").filter
        (fun a => artefacto_tiene_idioma a idioma) ∧
    verificar_artefactos_existentes listar idioma "audio" =
      (listarKind listar "audio").filter
        (fun a => artefacto_tiene_idioma a idioma) ∧
    verificar_artefactos_existentes listar idioma "mind_map" =
      listarKind listar "mind_map" ∧
    verificar_artefactos_existentes listar idioma "slides" =
      listarKind listar "slides" ∧
    verificar_artefactos_existentes listar idioma "infographic" =
      listarKind listar "infographic" ∧
    verificar_artefactos_existentes listar idioma "video" =
      listarKind listar "video" ∧
    verificar_artefactos_existentes listar idioma "data_table" =
      listarKind listar "data_table" ∧
    verificar_artefactos_existentes listar idioma "quiz" =
      listarKind listar "quiz" ∧
    verificar_artefactos_existentes listar idioma "flashcards" =
      listarKind listar "flashcards" :=
  ⟨filtrarIdioma_eq_filter idioma (listarKind listar "report"),
   filtrarIdioma_eq_filter idioma (listarKind listar "audio"),
   rfl, rfl, rfl, rfl, rfl, rfl, rfl⟩

/-!
## Slide-deck and audio decoder claims
-/

/-- C7: slide-deck decoding is a fixed-offset read: when index 16 of the
payload holds a list whose index 3 is a string starting with `"http"`, the
decoder returns exactly that string; a payload of length 16 or less, or an
inner metadata list of length 3 or less, yields `None` without raising. -/
theorem extraer_slides_desplazamiento (raw ml : List PyVal) (url : String) :
    (16 < raw.length → raw.get? 16 = some (PyVal.list ml) → 3 < ml.length →
      ml.get? 3 = some (PyVal.str url) → pyStartsWith url "http" = true →
      extraer_url_de_artefacto_raw raw STUDIO_SLIDE_DECK =
        Except.ok (some (PyVal.str url))) ∧
    (raw.length ≤ 16 →
      extraer_url_de_artefacto_raw raw STUDIO_SLIDE_DECK =
        Except.ok Option.none) ∧
    (raw.get? 16 = some (PyVal.list ml) → ml.length ≤ 3 →
      extraer_url_de_artefacto_raw raw STUDIO_SLIDE_DECK =
        Except.ok Option.none) := by
  refine ⟨?_, ?_, ?_⟩
  · intro h16 hget hml hget3 hs
    have hpy : pyIndex (PyVal.list raw) 16 = Except.ok (PyVal.list ml) := by
      simp only [pyIndex]; rw [hget]
    have hpy3 : pyIndex (PyVal.list ml) 3 = Except.ok (PyVal.str url) := by
      simp only [pyIndex]; rw [hget3]
    have h16n : ¬ raw.length ≤ 16 := by omega
    have h3n : ¬ ml.length ≤ 3 := by omega
    simp [extraer_url_de_artefacto_raw, extraerCuerpo, STUDIO_SLIDE_DECK,
      STUDIO_AUDIO, STUDIO_VIDEO, STUDIO_INFOGRAPHIC, h16n, hpy, h3n, hpy3, hs]
  · intro h16
    simp [extraer_url_de_artefacto_raw, extraerCuerpo, STUDIO_SLIDE_DECK,
      STUDIO_AUDIO, STUDIO_VIDEO, STUDIO_INFOGRAPHIC, h16]
  · intro hget h3
    obtain ⟨hlt, -⟩ := List.get?_eq_some.mp hget
    have hpy : pyIndex (PyVal.list raw) 16 = Except.ok (PyVal.list ml) := by
      simp only [pyIndex]; rw [hget]
    have h16n : ¬ raw.length ≤ 16 := by omega
    simp [extraer_url_de_artefacto_raw, extraerCuerpo, STUDIO_SLIDE_DECK,
      STUDIO_AUDIO, STUDIO_VIDEO, STUDIO_INFOGRAPHIC, h16n, hpy, h3]

/-- A 17-element slides payload with the PDF URL at `raw[16][3]`. -/
def cargaSlides : List PyVal :=
  List.replicate 16 (PyVal.int 0) ++
    [PyVal.list [PyVal.int 0, PyVal.int 0, PyVal.int 0,
      PyVal.str "http://x/p.pdf"]]

theorem extraer_slides_desplazamiento_witness :
    extraer_url_de_artefacto_raw cargaSlides STUDIO_SLIDE_DECK =
      Except.ok (some (PyVal.str "http://x/p.pdf")) ∧
    extraer_url_de_artefacto_raw [] STUDIO_SLIDE_DECK =
      Except.ok Option.none :=
  ⟨(extraer_slides_desplazamiento cargaSlides
      [PyVal.int 0, PyVal.int 0, PyVal.int 0, PyVal.str "http://x/p.pdf"]
      "http://x/p.pdf").1
      (by decide) (by decide) (by decide) (by decide) (by decide),
   (extraer_slides_desplazamiento [] [] "").2.1 (by decide)⟩

/-- The audio media-entry predicate of the source's search loop: a list of
length `> 2` whose index 2 is the string `"audio/mp4"`. -/
def esEntradaMp4 (v : PyVal) : Bool :=
  match v with
  | PyVal.list e =>
    decide (2 < e.length) && decide (e.get? 2 = some (PyVal.str "audio/mp4"))
  | _ => false

/-- The search loop returns the URL field of the first matching entry,
skipping any earlier non-matching entries. -/
theorem buscarMime_encuentra :
    ∀ (pre e resto : List PyVal) (u : PyVal),
    (∀ x ∈ pre, esEntradaMp4 x = false) →
    2 < e.length → e.get? 2 = some (PyVal.str "audio/mp4") →
    e.get? 0 = some u →
    buscarMime "audio/mp4" (pre ++ PyVal.list e :: resto) =
      Except.ok (some u) := by
  intro pre
  induction pre with
  | nil =>
    intro e resto u _ hlen hg2 hg0
    have hpy2 : pyIndex (PyVal.list e) 2 = Except.ok (PyVal.str "audio/mp4") := by
      simp only [pyIndex]; rw [hg2]
    have hpy0 : pyIndex (PyVal.list e) 0 = Except.ok u := by
      simp only [pyIndex]; rw [hg0]
    simp [buscarMime, hlen, hpy2, hpy0]
  | cons x pre ih =>
    intro e resto u hpre hlen hg2 hg0
    have hx := hpre x (by simp)
    have hrec := ih e resto u (fun y hy => hpre y (by simp [hy])) hlen hg2 hg0
    cases x with
    | str s => simpa [buscarMime] using hrec
    | int n => simpa [buscarMime] using hrec
    | bool b => simpa [buscarMime] using hrec
    | none => simpa [buscarMime] using hrec
    | list ex =>
      simp [esEntradaMp4] at hx
      by_cases hl : 2 < ex.length
      · obtain ⟨v2, hv2ok, hv2get⟩ := pyIndex_ok_of_lt ex 2 (by omega)
        have hv2ne : ¬ v2 = PyVal.str "audio/mp4" := by
          intro hcontra
          rw [hcontra] at hv2get
          exact absurd hv2get (by simpa using hx hl)
        simp [buscarMime, hl, hv2ok, hv2ne, hrec]
      · simp [buscarMime, hl, hrec]

/-- When no entry matches, the search loop reports no result. -/
theorem buscarMime_ninguno :
    ∀ items : List PyVal, (∀ x ∈ items, esEntradaMp4 x = false) →
    buscarMime "audio/mp4" items = Except.ok Option.none := by
  intro items
  induction items with
  | nil => intro _; rfl
  | cons x resto ih =>
    intro hno
    have hx := hno x (by simp)
    have hrec := ih (fun y hy => hno y (by simp [hy]))
    cases x with
    | str s => simpa [buscarMime] using hrec
    | int n => simpa [buscarMime] using hrec
    | bool b => simpa [buscarMime] using hrec
    | none => simpa [buscarMime] using hrec
    | list ex =>
      simp [esEntradaMp4] at hx
      by_cases hl : 2 < ex.length
      · obtain ⟨v2, hv2ok, hv2get⟩ := pyIndex_ok_of_lt ex 2 (by omega)
        have hv2ne : ¬ v2 = PyVal.str "audio/mp4" := by
          intro hcontra
          rw [hcontra] at hv2get
          exact absurd hv2get (by simpa using hx hl)
        simp [buscarMime, hl, hv2ok, hv2ne, hrec]
      · simp [buscarMime, hl, hrec]

/-- C8: audio decoding prefers the declared MIME `"audio/mp4"`: when the
media list `payload[6][5]` has a first matching entry — even if it is not
the first entry — the decoder returns that entry's URL field (index 0); when
no entry matches, it falls back to the first entry's URL field. -/
theorem extraer_audio_mp4 (raw ml items e f : List PyVal) (u : PyVal)
    (h6 : 6 < raw.length)
    (hg6 : raw.get? 6 = some (PyVal.list ml))
    (h5 : 5 < ml.length)
    (hg5 : ml.get? 5 = some (PyVal.list items)) :
    ((∀ pre resto, items = pre ++ PyVal.list e :: resto →
        (∀ x ∈ pre, esEntradaMp4 x = false) →
        2 < e.length → e.get? 2 = some (PyVal.str "audio/mp4") →
        e.get? 0 = some u →
        extraer_url_de_artefacto_raw raw STUDIO_AUDIO = Except.ok (some u)) ∧
     ((∀ x ∈ items, esEntradaMp4 x = false) →
        items.get? 0 = some (PyVal.list f) → 0 < f.length →
        f.get? 0 = some u →
        extraer_url_de_artefacto_raw raw STUDIO_AUDIO =
          Except.ok (some u))) := by
  have hpy6 : pyIndex (PyVal.list raw) 6 = Except.ok (PyVal.list ml) := by
    simp only [pyIndex]; rw [hg6]
  have hpy5 : pyIndex (PyVal.list ml) 5 = Except.ok (PyVal.list items) := by
    simp only [pyIndex]; rw [hg5]
  have h6n : ¬ raw.length ≤ 6 := by omega
  have h5n : ¬ ml.length ≤ 5 := by omega
  constructor
  · intro pre resto hitems hpre hlen hg2 hg0
    subst hitems
    have hner : ¬ (pre ++ PyVal.list e :: resto).length = 0 := by simp
    have hbm := buscarMime_encuentra pre e resto u hpre hlen hg2 hg0
    simp [extraer_url_de_artefacto_raw, extraerCuerpo, STUDIO_AUDIO,
      h6n, hpy6, h5n, hpy5, hner, hbm]
  · intro hno hg0i hflen hg0f
    have hbm := buscarMime_ninguno items hno
    have hpyi : pyIndex (PyVal.list items) 0 = Except.ok (PyVal.list f) := by
      simp only [pyIndex]; rw [hg0i]
    have hpyf : pyIndex (PyVal.list f) 0 = Except.ok u := by
      simp only [pyIndex]; rw [hg0f]
    have hlen0 : ¬ items.length = 0 := by
      intro hz
      rw [List.length_eq_zero.mp hz] at hg0i
      simp at hg0i
    simp [extraer_url_de_artefacto_raw, extraerCuerpo, STUDIO_AUDIO,
      h6n, hpy6, h5n, hpy5, hlen0, hbm, hpyi, hflen, hpyf]

/-- An audio payload with two media entries; only the second has MIME
`"audio/mp4"`. -/
def cargaAudio : List PyVal :=
  [PyVal.int 0, PyVal.int 0, PyVal.int 0, PyVal.int 0, PyVal.int 0, PyVal.int 0,
   PyVal.list [PyVal.int 0, PyVal.int 0, PyVal.int 0, PyVal.int 0, PyVal.int 0,
     PyVal.list
       [PyVal.list [PyVal.str "http://first", PyVal.int 0,
          PyVal.str "audio/other"],
        PyVal.list [PyVal.str "http://mp4", PyVal.int 0,
          PyVal.str "audio/mp4"]]]]

theorem extraer_audio_mp4_witness :
    extraer_url_de_artefacto_raw cargaAudio STUDIO_AUDIO =
      Except.ok (some (PyVal.str "http://mp4")) :=
  (extraer_audio_mp4 cargaAudio
      [PyVal.int 0, PyVal.int 0, PyVal.int 0, PyVal.int 0, PyVal.int 0,
       PyVal.list
         [PyVal.list [PyVal.str "http://first", PyVal.int 0,
            PyVal.str "audio/other"],
          PyVal.list [PyVal.str "http://mp4", PyVal.int 0,
            PyVal.str "audio/mp4"]]]
      [PyVal.list [PyVal.str "http://first", PyVal.int 0,
         PyVal.str "audio/other"],
       PyVal.list [PyVal.str "http://mp4", PyVal.int 0,
         PyVal.str "audio/mp4"]]
      [PyVal.str "http://mp4", PyVal.int 0, PyVal.str "audio/mp4"]
      [] (PyVal.str "http://mp4")
      (by decide) (by decide) (by decide) (by decide)).1
    [PyVal.list [PyVal.str "http://first", PyVal.int 0,
       PyVal.str "audio/other"]] []
    (by decide) (by decide) (by decide) (by decide) (by decide)
